import Mathlib

/-!
Verification development for the MCConsoleAPI process-supervision core.

The definitions below are a shallow embedding of the Python source:
* `LimitedList` embeds `util/util.py`'s `LimitedList` (the ScrollbackBuffer).
* `find_jar`, `generate_time_message` embed the helpers in `util/util.py`.
* `Process.*` embeds the lifecycle methods of `services/process.py`'s
  `Process` class (`start_server`, `restart_server`, `proc_closed`,
  `server_input`, `console_output`, `build_java_command`).
* `ProcessProtocol.*` embeds the console dispatch of
  `services/process.py`'s `ProcessProtocol`
  (`pipe_data_received`, `register_console_consumer`).
* `MCConsoleAPI.restart_server_schedule` embeds the timer scheduling of the
  restart endpoint in `main.py`.

External effects (the event loop, the subprocess pipes, the analytics
services) are modelled as explicit parameters or recorded events; Python
lists are Lean lists, Python `dict`-free state is an explicit structure.
-/

/-! ### util/util.py -/

/-- Embeds `LimitedList`: a Python `list` subclass carrying a `maxlen`. -/
structure LimitedList (α : Type) where
  maxlen : Nat
  data : List α
  deriving Repr, DecidableEq

namespace LimitedList

/-- Embeds `LimitedList._truncate`: `dif = len(self) - self._maxlen;
if dif > 0: self[:dif] = []`, i.e. drop the oldest `dif` entries.
Natural-number subtraction makes the `dif > 0` guard implicit. -/
def truncate (maxlen : Nat) (l : List α) : List α :=
  l.drop (l.length - maxlen)

/-- Embeds `LimitedList.append`: `list.append(self, x); self._truncate()`. -/
def append (l : LimitedList α) (x : α) : LimitedList α :=
  { l with data := truncate l.maxlen (l.data ++ [x]) }

/-- An empty buffer with the given capacity (the state
`LimitedList(maxlen=1000)` is constructed in, in `ProcessProtocol.__init__`). -/
def empty (maxlen : Nat) : LimitedList α := ⟨maxlen, []⟩

/-- Appending a whole sequence of lines, oldest first. -/
def appendAll (l : LimitedList α) (xs : List α) : LimitedList α :=
  xs.foldl append l

end LimitedList

/-- Embeds `find_jar(pattern)`. The enumeration `find_files(pattern)`
(`glob.glob`) is an external effect; its result list, in glob enumeration
order, is the parameter. The code returns `None` on an empty result and
`files[0]` otherwise. -/
def find_jar (files : List String) : Option String :=
  if files.length = 0 then none else files.head?

/-- Embeds `generate_time_message(interval)`:
`hours, remainder = divmod(interval, 3600); minutes, seconds = divmod(remainder, 60)`,
then one part per nonzero component with an `'s'` suffix when the value
exceeds one, joined by `", "`. -/
def generate_time_message (interval : Nat) : String :=
  let hours := interval / 3600
  let remainder := interval % 3600
  let minutes := remainder / 60
  let seconds := remainder % 60
  let msg_parts : List String :=
    (if hours > 0 then
      [toString hours ++ " hour" ++ (if hours > 1 then "s" else "")] else []) ++
    (if minutes > 0 then
      [toString minutes ++ " minute" ++ (if minutes > 1 then "s" else "")] else []) ++
    (if seconds > 0 then
      [toString seconds ++ " second" ++ (if seconds > 1 then "s" else "")] else [])
  String.intercalate ", " msg_parts

/-! ### services/process.py — ProcessProtocol

Consumers are Python callables (coroutine functions or futures); the
embedding identifies each one by an id of type `κ`. `_consumers` holds the
permanent (streaming) consumers, `_temp_consumers` the one-shot futures;
`register_console_consumer` appends to the end of the matching list.
`pipe_data_received` returns, besides the new state, the list of
(consumer id, line) deliveries it performed, in the order it performed
them (`set_result` / `create_task` per consumer). -/

/-- State of a `ProcessProtocol`: the scrollback buffer and the two
consumer lists, in registration order. -/
structure ProcessProtocol (κ : Type) where
  scrollback_buffer : LimitedList (String × Nat)
  consumers : List κ
  temp_consumers : List κ
  deriving Repr, DecidableEq

namespace ProcessProtocol

/-- A fresh protocol, as built by `ProcessProtocol.__init__`:
`LimitedList(maxlen=1000)`, empty consumer lists. -/
def init (κ : Type) : ProcessProtocol κ :=
  ⟨LimitedList.empty 1000, [], []⟩

/-- The argument of `register_console_consumer`: a coroutine function, a
future, or anything else (which raises `ValueError`). -/
inductive Callback (κ : Type) where
  | coroutine (c : κ)
  | future (f : κ)
  | other
  deriving Repr, DecidableEq

/-- Embeds `register_console_consumer`: coroutine functions are appended to
`_consumers`, futures to `_temp_consumers`, anything else raises. -/
def register_console_consumer (p : ProcessProtocol κ) :
    Callback κ → Except String (ProcessProtocol κ)
  | .coroutine c => .ok { p with consumers := p.consumers ++ [c] }
  | .future f => .ok { p with temp_consumers := p.temp_consumers ++ [f] }
  | .other => .error "Callback must be a coroutine or a future!"

/-- Embeds the temp-consumer loop of `pipe_data_received`:
`for i in range(len(self._temp_consumers)): consumer = self._temp_consumers.pop(); ...`.
`pop()` with no index removes and returns the LAST element; the loop runs
`n = len` times. Returns the remaining list and the popped consumers in pop
order. The `none` branch is unreachable while `n` is at most the length. -/
def popLoop : Nat → List κ → List κ × List κ
  | 0, l => (l, [])
  | n + 1, l =>
    match l.getLast? with
    | none => (l, [])
    | some c =>
      let r := popLoop n l.dropLast
      (r.1, c :: r.2)

/-- Embeds `pipe_data_received(fd, data)` after decoding: `message` is the
decoded, stripped line and `ts` its timestamp. The line is appended to the
scrollback buffer, delivered to every permanent consumer in list order,
then the temp-consumer loop pops every pending one-shot consumer and
delivers the same line to each. Returns the new state and the deliveries
in the order performed. -/
def pipe_data_received (p : ProcessProtocol κ) (message : String) (ts : Nat) :
    ProcessProtocol κ × List (κ × String) :=
  let sb := p.scrollback_buffer.append (message, ts)
  let permDeliveries := p.consumers.map (fun c => (c, message))
  let r := popLoop p.temp_consumers.length p.temp_consumers
  (⟨sb, p.consumers, r.1⟩,
   permDeliveries ++ r.2.map (fun c => (c, message)))

/-- Dispatching a whole sequence of lines, in production order,
accumulating every delivery performed. -/
def dispatchAll (p : ProcessProtocol κ) :
    List (String × Nat) → ProcessProtocol κ × List (κ × String)
  | [] => (p, [])
  | (m, t) :: rest =>
    let r := pipe_data_received p m t
    let r' := dispatchAll r.1 rest
    (r'.1, r.2 ++ r'.2)

end ProcessProtocol

/-! ### services/process.py — Process

The lifecycle methods mutate the flags `running` and `restarting` and the
per-session lists `connected_players` and `chat_history`. The subprocess
spawn, the analytics calls and the config reload are external effects; the
one external input that decides control flow inside `start_server` is
whether `find_jar` locates the launch jar, passed in as `jarFound` (the
result of the glob being nonempty). -/

/-- The supervised-process state mutated by `Process`'s lifecycle methods. -/
structure Process where
  running : Bool
  restarting : Bool
  connected_players : List String
  chat_history : List (String × String)
  deriving Repr, DecidableEq

namespace Process

/-- Embeds `build_java_command`. `java_path`, the optional `jvm_args` and
the `server_jar` pattern come from the config; `files` is the glob result
for the pattern, in enumeration order. Raising `FileNotFoundError` is the
`.error` branch. -/
def build_java_command (java_path : String) (jvm_args : Option (List String))
    (pattern : String) (files : List String) : Except String (List String) :=
  let head := [java_path] ++ jvm_args.getD [] ++
    ["-Djline.terminal=jline.UnsupportedTerminal", "-jar"]
  match find_jar files with
  | none => .error ("Unable to find a minecraft jar in the server directory using the pattern: "
      ++ pattern)
  | some jar_path => .ok (head ++ [jar_path, "nogui"])

/-- Embeds `start_server`'s effect on the `Process` state. The method first
clears `connected_players` and `chat_history`; if building the java command
raises `FileNotFoundError` (`jarFound = false`) it returns `false` there;
otherwise it spawns the subprocess, sets `running := true` and
`restarting := false`, and returns `true`. The restart-timer scheduling
it may then perform is modelled separately (see
`MCConsoleAPI.restart_server_schedule`). -/
def start_server (jarFound : Bool) (s : Process) : Process × Bool :=
  let s := { s with connected_players := [], chat_history := [] }
  if jarFound then ({ s with running := true, restarting := false }, true)
  else (s, false)

/-- Embeds `restart_server`'s effect on the `Process` state, assuming the
`while self.running: await asyncio.sleep(1)` wait terminates. It sets
`restarting := true`; if the server is not running it degrades to
`start_server` and returns; otherwise it sends `"stop"`, waits until
`proc_closed` for the clean stop has set `running := false`, calls
`start_server` again and finally sets `restarting := false`. -/
def restart_server (jarFound : Bool) (s : Process) : Process :=
  let s := { s with restarting := true }
  if !s.running then (start_server jarFound s).1
  else
    let s := { s with running := false }
    let s := (start_server jarFound s).1
    { s with restarting := false }

/-- Embeds `proc_closed(exit_code)`, returning the new state and how many
times `restart_server` was awaited. It sets `running := false`; if the exit
code is not in the allow-list `(0, 3221225786)` it awaits `restart_server`
once, otherwise it does not restart. -/
def proc_closed (jarFound : Bool) (s : Process) (exit_code : Int) :
    Process × Nat :=
  let s := { s with running := false }
  if exit_code = 0 ∨ exit_code = 3221225786 then (s, 0)
  else (restart_server jarFound s, 1)

/-- Python's `sub in s` containment test on strings, as lists of
characters: `sub` occurs contiguously somewhere in the list. -/
def pyContains (sub : List Char) : List Char → Bool
  | [] => sub.isPrefixOf []
  | c :: rest => sub.isPrefixOf (c :: rest) || pyContains sub rest

/-- The runtime state of the `protocol` attribute of a `Process`.
`Process.__init__` never assigns it; only `start_server` does
(`self.protocol = ProcessProtocol(...)`). So the attribute is either
`unset` (lookup raises `AttributeError`) or `bound` to a `ProcessProtocol`
instance, and `ProcessProtocol` defines no `__bool__`/`__len__`, so a
bound instance is always truthy under `if self.protocol:`. -/
inductive ProtocolAttr (κ : Type) where
  | unset
  | bound (protocol : ProcessProtocol κ)
  deriving Repr, DecidableEq

/-- Embeds `server_input(data)`'s result. `resolvedLine` is the line the
awaited one-shot future resolves with (the next console line). Evaluating
`if self.protocol:` on an unset attribute raises `AttributeError` (in
Python the message quotes the class and attribute names); on a bound
attribute the test is always truthy and the method returns
`("unknown command" not in line.lower(), line)`, with `line.lower()`
modelled character-wise as `Char.toLower` over the line's characters.
The `(False, "Server protocol is not present... has the server been
started?")` return at the end of the method is the else branch of the
truthiness test, reachable only for a falsy attribute value, which no
assignment in the source ever produces. -/
def server_input (attr : ProtocolAttr κ) (resolvedLine : String) :
    Except String (Bool × String) :=
  match attr with
  | .unset => .error "AttributeError: Process object has no attribute protocol"
  | .bound _ =>
      .ok (!(pyContains ("unknown command".data) (resolvedLine.data.map Char.toLower)),
        resolvedLine)

/-- The result of matching one console line against the three configured
patterns, as consumed by `console_output`: the chat match's
`(username, message)` groups, the connect match's `(username, ip)` groups
and the disconnect match's `(username, reason)` groups, each `none` when
the pattern does not match. The regexes themselves come from the config and
are external. -/
structure LineMatches where
  chat : Option (String × String)
  connect : Option (String × String)
  disconnect : Option (String × String)
  deriving Repr, DecidableEq

/-- Embeds `console_output(output)`'s effect on the `Process` state. A chat
match appends to `chat_history`; a connect match with no chat match on the
same line appends the username to `connected_players`; a disconnect match
with no chat match removes the username via
`if username in self.connected_players: self.connected_players.remove(username)`
(`list.remove` deletes the first occurrence). -/
def console_output (m : LineMatches) (s : Process) : Process :=
  let s := match m.chat with
    | some (username, message) =>
        { s with chat_history := s.chat_history ++ [(username, message)] }
    | none => s
  let s := match m.connect with
    | some (username, _ip) =>
        if m.chat.isNone then
          { s with connected_players := s.connected_players ++ [username] }
        else s
    | none => s
  match m.disconnect with
  | some (username, _reason) =>
      if m.chat.isNone then
        if username ∈ s.connected_players then
          { s with connected_players := s.connected_players.erase username }
        else s
      else s
  | none => s

end Process

/-! ### main.py — restart endpoint scheduling -/

namespace MCConsoleAPI

/-- Embeds the timer scheduling of `MCConsoleAPI.restart_server` in
`main.py` for a provided `time_delta`: the restart task is scheduled
`time_delta` seconds from now, and for each configured alert interval with
`time_delta > interval` a reminder task is scheduled `time_delta - interval`
seconds from now. Returns (reminder delays in configuration order, restart
delay). The same pattern, with `time_delta = restart_interval * 3600`,
appears in `Process.start_server`'s auto-restart branch. -/
def restart_server_schedule (time_delta : Int) (alert_intervals : List Int) :
    List Int × Int :=
  (alert_intervals.filterMap
    (fun interval =>
      if time_delta > interval then some (time_delta - interval) else none),
   time_delta)

end MCConsoleAPI

/-! ### Specification-side definitions (for refinement statements) -/

/-- The claim's description of duration formatting, stated independently of
the code: one component per nonzero value among hours, minutes and seconds
(in that order), each pluralized exactly when its value exceeds 1, joined
with commas. -/
def generateDurationSpec (n : Nat) : String :=
  String.intercalate ", "
    (([(n / 3600, " hour"), (n % 3600 / 60, " minute"), (n % 3600 % 60, " second")]).filterMap
      (fun p =>
        if p.1 > 0 then some (toString p.1 ++ p.2 ++ (if p.1 > 1 then "s" else ""))
        else none))

/-- The lines delivered to consumer `c` within a delivery list, in
delivery order. -/
def deliveriesTo {κ : Type} [DecidableEq κ] (c : κ) (ds : List (κ × String)) :
    List String :=
  (ds.filter (fun e => e.1 = c)).map Prod.snd

/-! ### Helper lemmas -/

namespace LimitedList

theorem truncate_append (cap : Nat) (a b : List α) :
    truncate cap (truncate cap a ++ b) = truncate cap (a ++ b) := by
  unfold truncate
  rw [List.drop_append_eq_append_drop, List.drop_append_eq_append_drop, List.drop_drop]
  congr 1
  · congr 1
    simp only [List.length_append, List.length_drop]
    omega
  · congr 1
    simp only [List.length_append, List.length_drop]
    omega

theorem length_truncate_le (cap : Nat) (l : List α) :
    (truncate cap l).length ≤ cap := by
  simp only [truncate, List.length_drop]
  omega

theorem appendAll_data (cap : Nat) (l xs : List α) (h : l.length ≤ cap) :
    (appendAll ⟨cap, l⟩ xs).data = truncate cap (l ++ xs) := by
  induction xs generalizing l with
  | nil => simp [appendAll, truncate, Nat.sub_eq_zero_of_le h]
  | cons x xs ih =>
    show (appendAll (append ⟨cap, l⟩ x) xs).data = _
    rw [show append ⟨cap, l⟩ x = (⟨cap, truncate cap (l ++ [x])⟩ : LimitedList α) from rfl]
    rw [ih _ (length_truncate_le cap _), truncate_append]
    simp

end LimitedList

namespace ProcessProtocol

theorem popLoop_length (l : List κ) : popLoop l.length l = ([], l.reverse) := by
  induction l using List.reverseRecOn with
  | nil => rfl
  | append_singleton ys y ih =>
    rw [List.length_append]
    show popLoop (ys.length + 1) (ys ++ [y]) = _
    rw [popLoop, List.getLast?_concat, List.dropLast_concat]
    simp [ih]

theorem pipe_data_received_eq (p : ProcessProtocol κ) (m : String) (ts : Nat) :
    p.pipe_data_received m ts =
      (⟨p.scrollback_buffer.append (m, ts), p.consumers, []⟩,
       p.consumers.map (fun c => (c, m)) ++
         p.temp_consumers.reverse.map (fun c => (c, m))) := by
  simp [pipe_data_received, popLoop_length]

end ProcessProtocol

theorem pyContains_iff (sub l : List Char) :
    Process.pyContains sub l = true ↔ sub <:+: l := by
  induction l with
  | nil => simp [Process.pyContains, List.isPrefixOf_iff_prefix]
  | cons c rest ih =>
    simp [Process.pyContains, List.isPrefixOf_iff_prefix, ih, List.infix_cons_iff]

theorem deliveriesTo_append {κ : Type} [DecidableEq κ] (c : κ)
    (a b : List (κ × String)) :
    deliveriesTo c (a ++ b) = deliveriesTo c a ++ deliveriesTo c b := by
  simp [deliveriesTo]

theorem deliveriesTo_map_line {κ : Type} [DecidableEq κ] (c : κ) (l : List κ)
    (m : String) :
    deliveriesTo c (l.map (fun x => (x, m))) = List.replicate (l.count c) m := by
  unfold deliveriesTo
  rw [List.filter_map]
  rw [show ((fun e : κ × String => decide (e.1 = c)) ∘ fun x => (x, m)) =
    (fun x => x == c) from rfl]
  rw [List.filter_beq]
  simp [List.map_replicate]

theorem deliveriesTo_dispatchAll_nil {κ : Type} [DecidableEq κ] (c : κ)
    (q : ProcessProtocol κ) (ls : List (String × Nat))
    (h1 : c ∉ q.consumers) (h2 : c ∉ q.temp_consumers) :
    deliveriesTo c (q.dispatchAll ls).2 = [] := by
  induction ls generalizing q with
  | nil => simp [ProcessProtocol.dispatchAll, deliveriesTo]
  | cons l ls ih =>
    obtain ⟨m, t⟩ := l
    show deliveriesTo c (ProcessProtocol.dispatchAll q ((m, t) :: ls)).2 = []
    rw [ProcessProtocol.dispatchAll]
    rw [deliveriesTo_append]
    rw [ProcessProtocol.pipe_data_received_eq, deliveriesTo_append,
      deliveriesTo_map_line, deliveriesTo_map_line]
    rw [List.count_eq_zero.mpr h1, List.count_eq_zero.mpr (by simpa using h2)]
    rw [ih _ (by simpa [ProcessProtocol.pipe_data_received_eq] using h1)
      (by simp [ProcessProtocol.pipe_data_received_eq])]
    rfl

/-! ### Claims -/

/-- Claim C1 counterexample: with two pending OneShot consumers (10
registered before 20) and no streaming consumers, dispatching one line
delivers it to BOTH pending consumers, newest first, and leaves none
registered — not to exactly one (the oldest) leaving the other. -/
theorem oneshot_fifo_counterexample :
    (ProcessProtocol.pipe_data_received (κ := Nat)
        ⟨LimitedList.empty 1000, [], [10, 20]⟩ "a" 0).2 = [(20, "a"), (10, "a")] ∧
    (ProcessProtocol.pipe_data_received (κ := Nat)
        ⟨LimitedList.empty 1000, [], [10, 20]⟩ "a" 0).1.temp_consumers = [] ∧
    ¬ ((ProcessProtocol.pipe_data_received (κ := Nat)
          ⟨LimitedList.empty 1000, [], [10, 20]⟩ "a" 0).2 = [(10, "a")] ∧
       (ProcessProtocol.pipe_data_received (κ := Nat)
          ⟨LimitedList.empty 1000, [], [10, 20]⟩ "a" 0).1.temp_consumers = [20]) := by
  refine ⟨rfl, rfl, ?_⟩
  rintro ⟨h, -⟩
  rw [show (ProcessProtocol.pipe_data_received (κ := Nat)
      ⟨LimitedList.empty 1000, [], [10, 20]⟩ "a" 0).2 = [(20, "a"), (10, "a")] from rfl] at h
  simp at h

/-- Claim C1 (amended): when one or more OneShot consumers are pending,
a dispatched line is delivered to every one of them, resolved in LIFO
order (the newest-registered consumer first), and all of them are removed:
no pending OneShot consumer remains registered after the dispatch. -/
theorem oneshot_dispatch_lifo_all {κ : Type} (p : ProcessProtocol κ)
    (m : String) (ts : Nat) (_hpending : p.temp_consumers ≠ []) :
    (p.pipe_data_received m ts).1.temp_consumers = [] ∧
    (p.pipe_data_received m ts).2 =
      p.consumers.map (fun c => (c, m)) ++
        p.temp_consumers.reverse.map (fun c => (c, m)) := by
  rw [ProcessProtocol.pipe_data_received_eq]
  exact ⟨rfl, rfl⟩

/-- Witness for the amended claim C1 with two pending OneShot consumers. -/
theorem oneshot_dispatch_lifo_all_witness :
    (([10, 20] : List Nat) ≠ []) ∧
    (ProcessProtocol.pipe_data_received (κ := Nat)
        ⟨LimitedList.empty 1000, [], [10, 20]⟩ "a" 0).1.temp_consumers = [] ∧
    (ProcessProtocol.pipe_data_received (κ := Nat)
        ⟨LimitedList.empty 1000, [], [10, 20]⟩ "a" 0).2 =
      ([] : List Nat).map (fun c => (c, "a")) ++
        ([10, 20] : List Nat).reverse.map (fun c => (c, "a")) :=
  ⟨by decide,
   (oneshot_dispatch_lifo_all ⟨LimitedList.empty 1000, [], [10, 20]⟩ "a" 0 (by decide)).1,
   (oneshot_dispatch_lifo_all ⟨LimitedList.empty 1000, [], [10, 20]⟩ "a" 0 (by decide)).2⟩

/-- Claim C2: over every sequence of appended lines, the ScrollbackBuffer's
length never exceeds its capacity of 1000, and after more than 1000 appends
it holds exactly the most recent 1000 lines in production order. -/
theorem scrollback_capacity_invariant (xs : List (String × Nat)) :
    ((LimitedList.empty 1000 : LimitedList (String × Nat)).appendAll xs).data.length ≤ 1000 ∧
    (1000 < xs.length →
      ((LimitedList.empty 1000 : LimitedList (String × Nat)).appendAll xs).data =
        xs.drop (xs.length - 1000)) := by
  have h := LimitedList.appendAll_data 1000 [] xs (by simp)
  simp only [List.nil_append] at h
  constructor
  · rw [show (LimitedList.empty 1000 : LimitedList (String × Nat)) = ⟨1000, []⟩ from rfl, h]
    exact LimitedList.length_truncate_le 1000 xs
  · intro _
    rw [show (LimitedList.empty 1000 : LimitedList (String × Nat)) = ⟨1000, []⟩ from rfl, h]
    rfl

/-- Witness for claim C2 at a concrete 1001-line sequence. -/
theorem scrollback_capacity_invariant_witness :
    1000 < (List.replicate 1001 (("line", 0) : String × Nat)).length ∧
    ((LimitedList.empty 1000 : LimitedList (String × Nat)).appendAll
        (List.replicate 1001 ("line", 0))).data =
      (List.replicate 1001 (("line", 0) : String × Nat)).drop
        ((List.replicate 1001 (("line", 0) : String × Nat)).length - 1000) :=
  ⟨by simp only [List.length_replicate]; omega,
   (scrollback_capacity_invariant _).2 (by simp only [List.length_replicate]; omega)⟩

/-- Claim C3: a OneShot consumer registered (once) before a line is
dispatched receives exactly that line, exactly once, over the entire
subsequent sequence of dispatched lines, and is absent from the consumer
set immediately after that dispatch. -/
theorem oneshot_exactly_once {κ : Type} [DecidableEq κ] (p : ProcessProtocol κ)
    (c : κ) (m : String) (ts : Nat) (rest : List (String × Nat))
    (hreg : p.temp_consumers.count c = 1) (hperm : c ∉ p.consumers) :
    deliveriesTo c (p.dispatchAll ((m, ts) :: rest)).2 = [m] ∧
    c ∉ (p.pipe_data_received m ts).1.temp_consumers := by
  constructor
  · show deliveriesTo c (ProcessProtocol.dispatchAll p ((m, ts) :: rest)).2 = [m]
    rw [ProcessProtocol.dispatchAll, deliveriesTo_append]
    rw [ProcessProtocol.pipe_data_received_eq, deliveriesTo_append,
      deliveriesTo_map_line, deliveriesTo_map_line]
    rw [List.count_eq_zero.mpr hperm, List.count_reverse, hreg]
    rw [deliveriesTo_dispatchAll_nil c _ rest
      (by simpa [ProcessProtocol.pipe_data_received_eq] using hperm)
      (by simp [ProcessProtocol.pipe_data_received_eq])]
    rfl
  · rw [ProcessProtocol.pipe_data_received_eq]
    simp

/-- Witness for claim C3: one registered OneShot consumer, two dispatched
lines; the consumer receives only the first line. -/
theorem oneshot_exactly_once_witness :
    (([5] : List Nat).count 5 = 1) ∧ ((5 : Nat) ∉ ([] : List Nat)) ∧
    deliveriesTo 5 ((ProcessProtocol.dispatchAll
        (⟨LimitedList.empty 1000, [], [5]⟩ : ProcessProtocol Nat)
        [("ok", 0), ("later", 1)]).2) = ["ok"] ∧
    (5 : Nat) ∉ (ProcessProtocol.pipe_data_received
        (⟨LimitedList.empty 1000, [], [5]⟩ : ProcessProtocol Nat)
        "ok" 0).1.temp_consumers :=
  ⟨by decide, by decide,
   (oneshot_exactly_once ⟨LimitedList.empty 1000, [], [5]⟩ 5 "ok" 0 [("later", 1)]
      (by decide) (by decide)).1,
   (oneshot_exactly_once ⟨LimitedList.empty 1000, [], [5]⟩ 5 "ok" 0 [("later", 1)]
      (by decide) (by decide)).2⟩

/-- Claim C4 (code bug): with a bound protocol, `server_input` returns a
(success, line) pair whose success is false exactly when the resolved line
contains the case-insensitive substring "unknown command"; but on an
instance that was never started the `protocol` attribute is unset, so
`if self.protocol:` raises `AttributeError` and the claimed
`(false, "Server protocol is not present... has the server been
started?")` pair is never returned. -/
theorem server_input_result (line : String) (p : ProcessProtocol Nat) :
    (Process.server_input (.bound p) line = .ok (false, line) ↔
      "unknown command".data <:+: line.data.map Char.toLower) ∧
    (∃ success, Process.server_input (.bound p) line = .ok (success, line)) ∧
    Process.server_input (κ := Nat) .unset line =
      .error "AttributeError: Process object has no attribute protocol" ∧
    ∀ success,
      Process.server_input (κ := Nat) .unset line ≠
        .ok (success,
          "Server protocol is not present... has the server been started?") := by
  refine ⟨?_, ⟨_, rfl⟩, rfl, fun success h => ?_⟩
  · simp [Process.server_input, pyContains_iff]
  · exact Except.noConfusion h

/-- Witness for claim C4: the never-started failing input at the command
"stop", and a bound-protocol "unknown command" line. -/
theorem server_input_result_witness :
    Process.server_input (κ := Nat) .unset "stop" ≠
      .ok (false,
        "Server protocol is not present... has the server been started?") ∧
    Process.server_input (.bound (ProcessProtocol.init Nat))
        "Unknown command. Type help" =
      .ok (false, "Unknown command. Type help") :=
  ⟨(server_input_result "stop" (ProcessProtocol.init Nat)).2.2.2 false,
   (server_input_result "Unknown command. Type help"
      (ProcessProtocol.init Nat)).1.mpr (by decide)⟩

/-- Claim C5: `proc_closed` triggers a restart iff the exit code is outside
the allow-list (0, 3221225786), and triggers at most one restart per
invocation; exit code 0 gives no restart, exit code 1 exactly one. -/
theorem proc_closed_restart_policy (jarFound : Bool) (s : Process) (code : Int) :
    ((Process.proc_closed jarFound s code).2 = 1 ↔
      code ∉ ([0, 3221225786] : List Int)) ∧
    (Process.proc_closed jarFound s code).2 ≤ 1 ∧
    (Process.proc_closed jarFound s 0).2 = 0 ∧
    (Process.proc_closed jarFound s 1).2 = 1 := by
  unfold Process.proc_closed
  refine ⟨?_, ?_, by norm_num, by norm_num⟩ <;> split_ifs with h <;> simp_all

/-- Witness for claim C5 at exit codes 0, 1 and 5. -/
theorem proc_closed_restart_policy_witness :
    (Process.proc_closed true ⟨true, false, [], []⟩ 0).2 = 0 ∧
    (Process.proc_closed true ⟨true, false, [], []⟩ 1).2 = 1 ∧
    (Process.proc_closed true ⟨true, false, [], []⟩ 5).2 = 1 :=
  ⟨(proc_closed_restart_policy true ⟨true, false, [], []⟩ 5).2.2.1,
   (proc_closed_restart_policy true ⟨true, false, [], []⟩ 5).2.2.2,
   (proc_closed_restart_policy true ⟨true, false, [], []⟩ 5).1.mpr (by decide)⟩

/-- Claim C6 counterexample: with the process already stopped and the
launch jar not found, `restart_server` returns with the restarting flag
still set, refuting "the restarting flag is false on return for every
starting state". -/
theorem restart_flag_counterexample :
    (Process.restart_server false ⟨false, false, [], []⟩).restarting = true ∧
    ¬ (Process.restart_server false ⟨false, false, [], []⟩).restarting = false := by
  refine ⟨rfl, ?_⟩
  intro h
  rw [show (Process.restart_server false ⟨false, false, [], []⟩).restarting = true from rfl] at h
  cases h

/-- Claim C6 (amended): `restart_server` returns with the restarting flag
cleared iff the process was running or the degraded `start_server` finds
the launch jar; when the process was already stopped and the jar is
missing, the flag remains set on return. -/
theorem restart_clears_flag_iff (jarFound : Bool) (s : Process) :
    (Process.restart_server jarFound s).restarting = false ↔
      (s.running = true ∨ jarFound = true) := by
  cases hr : s.running <;> cases jarFound <;>
    simp [Process.restart_server, Process.start_server, hr]

/-- Witness for the amended claim C6: a stopped process whose start
succeeds ends with the restarting flag cleared. -/
theorem restart_clears_flag_iff_witness :
    (Process.restart_server true ⟨false, false, [], []⟩).restarting = false :=
  (restart_clears_flag_iff true ⟨false, false, [], []⟩).mpr (Or.inr rfl)

/-- Claim C7: scheduling a restart schedules one reminder at delay − offset
for each configured offset strictly below the delay, skips every offset at
or above the delay, and schedules the restart itself at the delay; with
delay 100 and offsets [30, 10, 200], reminders fire at 70 and 90 seconds
and the restart at 100. -/
theorem restart_schedule_times (d : Int) (offsets : List Int) :
    (MCConsoleAPI.restart_server_schedule d offsets).2 = d ∧
    (MCConsoleAPI.restart_server_schedule d offsets).1 =
      (offsets.filter (fun o => o < d)).map (fun o => d - o) ∧
    MCConsoleAPI.restart_server_schedule 100 [30, 10, 200] = ([70, 90], 100) := by
  refine ⟨rfl, ?_, by decide⟩
  induction offsets with
  | nil => rfl
  | cons o os ih =>
    by_cases h : o < d <;>
      simp_all [MCConsoleAPI.restart_server_schedule, List.filterMap_cons]

/-- Claim C8: a chat match suppresses connect/disconnect interpretation of
the same line; a connect match appends the username to the connected-player
list exactly once, at the end (preserving connection order); a disconnect
match removes the username when present and is a no-op otherwise. -/
theorem console_output_player_tracking (s : Process) (m : Process.LineMatches) :
    (∀ u msg, m.chat = some (u, msg) →
      (Process.console_output m s).connected_players = s.connected_players ∧
      (Process.console_output m s).chat_history = s.chat_history ++ [(u, msg)]) ∧
    (∀ u ip, m.chat = none → m.connect = some (u, ip) → m.disconnect = none →
      (Process.console_output m s).connected_players = s.connected_players ++ [u]) ∧
    (∀ u r, m.chat = none → m.connect = none → m.disconnect = some (u, r) →
      (Process.console_output m s).connected_players = s.connected_players.erase u ∧
      (u ∉ s.connected_players →
        (Process.console_output m s).connected_players = s.connected_players)) := by
  obtain ⟨mc, mcon, mdis⟩ := m
  refine ⟨?_, ?_, ?_⟩
  · rintro u msg rfl
    rcases mcon with _ | ⟨u', ip⟩ <;> rcases mdis with _ | ⟨u'', r⟩ <;>
      simp [Process.console_output]
  · rintro u ip rfl rfl rfl
    simp [Process.console_output]
  · rintro u r rfl rfl rfl
    refine ⟨?_, fun h => ?_⟩
    · by_cases h : u ∈ s.connected_players
      · simp [Process.console_output, h]
      · simp [Process.console_output, h, List.erase_of_not_mem h]
    · simp [Process.console_output, h]

/-- Witness for claim C8: a "Steve" connect line and a "Steve" disconnect
line against a state where "Steve" is absent. -/
theorem console_output_player_tracking_witness :
    (Process.console_output ⟨none, some ("Steve", "127.0.0.1"), none⟩
        ⟨true, false, ["Alex"], []⟩).connected_players = ["Alex"] ++ ["Steve"] ∧
    (Process.console_output ⟨none, none, some ("Steve", "timeout")⟩
        ⟨true, false, ["Alex"], []⟩).connected_players = ["Alex"] :=
  ⟨(console_output_player_tracking ⟨true, false, ["Alex"], []⟩
      ⟨none, some ("Steve", "127.0.0.1"), none⟩).2.1 "Steve" "127.0.0.1" rfl rfl rfl,
   ((console_output_player_tracking ⟨true, false, ["Alex"], []⟩
      ⟨none, none, some ("Steve", "timeout")⟩).2.2 "Steve" "timeout" rfl rfl rfl).2
      (by decide)⟩

/-- Claim C9: the human-readable duration decomposes seconds into hours,
minutes and seconds, keeps only nonzero components, joins them with commas
and pluralizes a component exactly when its value exceeds 1;
3661 ↦ "1 hour, 1 minute, 1 second", 7200 ↦ "2 hours", 0 ↦ "". -/
theorem generate_time_message_correct (n : Nat) :
    generate_time_message n = generateDurationSpec n ∧
    generate_time_message 3661 = "1 hour, 1 minute, 1 second" ∧
    generate_time_message 7200 = "2 hours" ∧
    generate_time_message 0 = "" := by
  refine ⟨?_, rfl, rfl, rfl⟩
  unfold generate_time_message generateDurationSpec
  simp only [List.filterMap_cons, List.filterMap_nil]
  split_ifs <;> simp

/-- Claim C10: artifact resolution returns the first glob match, so
command building succeeds (with that file) exactly when the pattern
matches at least one file, and fails with the `FileNotFoundError` branch
exactly when it matches zero files. -/
theorem build_java_command_first_match (java_path : String)
    (jvm_args : Option (List String)) (pattern : String) (files : List String) :
    ((∃ e, Process.build_java_command java_path jvm_args pattern files = .error e) ↔
      files = []) ∧
    (∀ f rest, files = f :: rest →
      find_jar files = some f ∧
      Process.build_java_command java_path jvm_args pattern files =
        .ok ([java_path] ++ jvm_args.getD [] ++
          ["-Djline.terminal=jline.UnsupportedTerminal", "-jar", f, "nogui"])) := by
  constructor
  · cases files <;> simp [Process.build_java_command, find_jar]
  · rintro f rest rfl
    exact ⟨by simp [find_jar], by simp [Process.build_java_command, find_jar]⟩

/-- Witness for claim C10 at a two-file glob result. -/
theorem build_java_command_first_match_witness :
    find_jar ["a.jar", "b.jar"] = some "a.jar" ∧
    Process.build_java_command "java" none "*.jar" ["a.jar", "b.jar"] =
      .ok (["java"] ++ (none : Option (List String)).getD [] ++
        ["-Djline.terminal=jline.UnsupportedTerminal", "-jar", "a.jar", "nogui"]) :=
  (build_java_command_first_match "java" none "*.jar" ["a.jar", "b.jar"]).2
    "a.jar" ["b.jar"] rfl
